import Mathlib

/-!
Verification of the SMTP connection engine (`lib/smtp-connection.js`).

JavaScript strings are modelled as `List Char` (`JStr`).  The string
operations the source uses (`split`, `join`, `trim`, `toUpperCase`,
`toLowerCase`, the two regular expressions) are given executable
definitions below, and the command handlers and the dispatcher
(`_onCommand`) are translated statement by statement.
-/

namespace SMTP

/-- JavaScript strings, modelled as lists of characters. -/
abbrev JStr := List Char

/-- Shorthand: a Lean string literal as a `JStr`. -/
def S (s : String) : JStr := s.toList

/-- The characters matched by the JavaScript `\s` class (and trimmed by
`String.prototype.trim`): ASCII whitespace plus the Unicode space
separators, line separators and the BOM. -/
def isWs (c : Char) : Bool :=
  c = ' ' || c = '\t' || c = '\n' || c = '\r' || c.val = 0x0b || c.val = 0x0c ||
  c.val = 0xa0 || c.val = 0x1680 || (0x2000 ≤ c.val && c.val ≤ 0x200a) ||
  c.val = 0x2028 || c.val = 0x2029 || c.val = 0x202f || c.val = 0x205f ||
  c.val = 0x3000 || c.val = 0xfeff

/-- `s.toUpperCase()` (ASCII letters; the inputs handled here are ASCII). -/
def upperL (l : JStr) : JStr := l.map Char.toUpper

/-- `s.toLowerCase()` (ASCII letters). -/
def lowerL (l : JStr) : JStr := l.map Char.toLower

/-- `s.trim()`: drop leading whitespace. -/
def trimLeftL (l : JStr) : JStr := l.dropWhile (fun c => isWs c)

/-- `s.trim()`: drop trailing whitespace. -/
def trimRightL (l : JStr) : JStr := (l.reverse.dropWhile (fun c => isWs c)).reverse

/-- `s.trim()`. -/
def trimL (l : JStr) : JStr := trimRightL (trimLeftL l)

/-- `s.split(c)` for a one-character separator: splits at every occurrence
of `c`, keeping empty pieces.  The result is always nonempty. -/
def splitOnChar (c : Char) : JStr → List JStr
  | [] => [[]]
  | x :: xs =>
    let r := splitOnChar c xs
    if x = c then [] :: r else (x :: r.headD []) :: r.tail

/-- `parts.join(c)` for a one-character separator. -/
def joinChar (c : Char) : List JStr → JStr
  | [] => []
  | [x] => x
  | x :: y :: t => x ++ c :: joinChar c (y :: t)

/-- `s.split(/\s+/)` on a trimmed string: the maximal runs of
non-whitespace characters, in order.  (On the empty string JavaScript
returns `[""]` while this returns `[]`; every use site treats a missing
token and an empty token the same way.) -/
def splitWsAux (acc : JStr) : JStr → List JStr
  | [] => if acc = [] then [] else [acc.reverse]
  | c :: cs =>
    if isWs c then
      if acc = [] then splitWsAux [] cs else acc.reverse :: splitWsAux [] cs
    else splitWsAux (c :: acc) cs

/-- The whitespace-separated tokens of a string. -/
def splitWs (l : JStr) : List JStr := splitWsAux [] l

/-- JavaScript truthiness of a string-or-`false` value: `false` and the
empty string are falsy. -/
def jsTruthy : Option JStr → Bool
  | none => false
  | some s => s ≠ []

theorem splitOnChar_ne_nil (c : Char) (l : JStr) : splitOnChar c l ≠ [] := by
  cases l with
  | nil => simp [splitOnChar]
  | cons x xs =>
    simp only [splitOnChar]
    split <;> simp

/-- Splitting a string that does not contain the separator. -/
theorem splitOnChar_not_mem {c : Char} {l : JStr} (h : c ∉ l) :
    splitOnChar c l = [l] := by
  induction l with
  | nil => rfl
  | cons x xs ih =>
    simp only [List.mem_cons, not_or] at h
    simp only [splitOnChar, ih h.2]
    rw [if_neg (by exact fun hc => h.1 hc.symm)]
    rfl

/-- Splitting at the first separator occurrence: the part before the first
`c` comes out as the head. -/
theorem splitOnChar_append {c : Char} {l : JStr} (h : c ∉ l) (r : JStr) :
    splitOnChar c (l ++ c :: r) = l :: splitOnChar c r := by
  induction l with
  | nil => simp [splitOnChar]
  | cons x xs ih =>
    simp only [List.mem_cons, not_or] at h
    simp only [List.cons_append, splitOnChar, List.append_eq, ih h.2]
    rw [if_neg (by exact fun hc => h.1 hc.symm)]
    rfl

/-- `join` undoes `split`. -/
theorem joinChar_splitOnChar (c : Char) (l : JStr) :
    joinChar c (splitOnChar c l) = l := by
  induction l with
  | nil => rfl
  | cons x xs ih =>
    simp only [splitOnChar]
    by_cases hx : x = c
    · subst hx
      simp only [if_pos rfl]
      cases h : splitOnChar x xs with
      | nil => exact absurd h (splitOnChar_ne_nil x xs)
      | cons hd t =>
        rw [h] at ih
        simp [joinChar, ih]
    · rw [if_neg hx]
      cases h : splitOnChar c xs with
      | nil => exact absurd h (splitOnChar_ne_nil c xs)
      | cons hd t =>
        rw [h] at ih
        cases t with
        | nil => simp_all [joinChar]
        | cons y ys => simp_all [joinChar]

theorem splitWsAux_append {t : JStr} (h : t.all (fun c => ¬ isWs c)) (acc r : JStr) :
    splitWsAux acc (t ++ r) = splitWsAux (t.reverse ++ acc) r := by
  induction t generalizing acc with
  | nil => simp
  | cons x xs ih =>
    simp only [List.all_cons, Bool.and_eq_true, decide_eq_true_eq] at h
    simp only [List.cons_append, splitWsAux]
    rw [if_neg (by simp [h.1]), show xs.append r = xs ++ r from rfl,
      ih (by simpa using h.2)]
    simp

/-- A nonempty whitespace-free string is a single token. -/
theorem splitWs_single {t : JStr} (h : t.all (fun c => ¬ isWs c)) (hne : t ≠ []) :
    splitWs t = [t] := by
  rw [splitWs, show t = t ++ [] by simp, splitWsAux_append h]
  simp [splitWsAux, hne]

/-- Two whitespace-free tokens separated by one space. -/
theorem splitWs_pair {t u : JStr} (ht : t.all (fun c => ¬ isWs c)) (htne : t ≠ [])
    (hu : u.all (fun c => ¬ isWs c)) (hune : u ≠ []) :
    splitWs (t ++ ' ' :: u) = [t, u] := by
  rw [splitWs, splitWsAux_append ht]
  simp only [List.append_nil, splitWsAux]
  rw [if_pos (by simp [isWs]), if_neg (by simpa using htne)]
  rw [show splitWsAux [] u = splitWs u from rfl, splitWs_single hu hune]
  simp

/-- Trimming a string whose first and last characters are not whitespace
is the identity. -/
theorem trimL_eq_self {x y : Char} {m : JStr} (hx : isWs x = false) (hy : isWs y = false) :
    trimL (x :: (m ++ [y])) = x :: (m ++ [y]) := by
  rw [trimL, trimLeftL, List.dropWhile_cons]
  rw [if_neg (by simp [hx])]
  rw [trimRightL]
  have : (x :: (m ++ [y])).reverse = y :: (m.reverse ++ [x]) := by simp
  rw [this, List.dropWhile_cons, if_neg (by simp [hy])]
  simp

/-! ## Address-command parser (`_parseAddressCommand`, source lines 360-408) -/

/-- A `MAIL`/`RCPT` parameter value: the text after the first `=`, or the
JavaScript sentinel `true` when the parameter had no `=` (or an empty
value, since `'' || true` is `true`). -/
inductive AVal where
  | str (s : JStr)
  | tru
deriving DecidableEq, Repr

/-- The parsed form of `MAIL FROM:<...>` / `RCPT TO:<...>`: the address and
the trailing parameters.  `args` is `none` when there were no parameters
(the source leaves `args` as `false`). -/
structure AddressRecord where
  address : JStr
  args : Option (List (JStr × AVal))
deriving DecidableEq, Repr

/-- Key update on an insertion-ordered map (JavaScript object property
assignment / `Map.prototype.set`): an existing key keeps its position and
gets the new value, a new key is appended. -/
def mapSet {α : Type} : List (JStr × α) → JStr → α → List (JStr × α)
  | [], k, v => [(k, v)]
  | (k', v') :: rest, k, v =>
    if k' = k then (k, v) :: rest else (k', v') :: mapSet rest k v

/-- Key lookup on an insertion-ordered map. -/
def mapGet {α : Type} : List (JStr × α) → JStr → Option α
  | [], _ => none
  | (k', v) :: rest, k => if k' = k then some v else mapGet rest k

/-- One step of the parameter loop (source lines 382-392): split the token
on `=`, uppercase the key, value is the rejoined remainder or the sentinel. -/
def addParam (args : Option (List (JStr × AVal))) (part : JStr) :
    Option (List (JStr × AVal)) :=
  let kv := splitOnChar '=' part
  let key := upperL (kv.headD [])
  let v := joinChar '=' kv.tail
  let value := if v = [] then AVal.tru else AVal.str v
  some (mapSet (args.getD []) key value)

/-- The parameter tokens folded into an argument map; `none` when there
were no parameters. -/
def parseParams (parts : List JStr) : Option (List (JStr × AVal)) :=
  parts.foldl addParam none

/-- The regular expression `^<[^<>]*>$`. -/
def matchAngle (t : JStr) : Bool :=
  match t with
  | '<' :: rest =>
    !rest.isEmpty && rest.getLast? == some '>' &&
      rest.dropLast.all (fun c => !(c == '<') && !(c == '>'))
  | _ => false

/-- Validation of the address token (source lines 376-402): it must match
`^<[^<>]*>$`; the bracket-stripped body may be empty, otherwise it must
contain exactly one `@` with nonempty local and domain parts, and the
domain is decoded from punycode (`toUnicode`). -/
def parseAddrPart (toUnicode : JStr → JStr) (addrTok : JStr)
    (args : Option (List (JStr × AVal))) : Option AddressRecord :=
  if matchAngle addrTok then
    let address := (addrTok.drop 1).dropLast
    if address = [] then some { address := [], args := args }
    else
      let ps := splitOnChar '@' address
      if ps.length = 2 ∧ ps.headD [] ≠ [] ∧ ps.tail.headD [] ≠ [] then
        some { address := ps.headD [] ++ '@' :: toUnicode (ps.tail.headD []), args := args }
      else none
  else none

/-- `_parseAddressCommand(name, command)` (source lines 360-408): split the
line on the first `:`, compare the uppercased left part with the expected
verb, tokenize the remainder, parse the parameters and validate the
address.  `toUnicode` is the punycode decoder the source imports. -/
def _parseAddressCommand (toUnicode : JStr → JStr) (name command : JStr) :
    Option AddressRecord :=
  let name' := upperL (trimL name)
  let parts := splitOnChar ':' command
  let cmd := upperL (trimL (parts.headD []))
  let toks := splitWs (trimL (joinChar ':' parts.tail))
  if name' ≠ cmd then none
  else parseAddrPart toUnicode (toks.headD []) (parseParams toks.tail)

theorem parseAddrPart_shape (toUnicode : JStr → JStr) (a b : JStr)
    (args : Option (List (JStr × AVal)))
    (ha : a ≠ []) (hb : b ≠ []) (haa : '@' ∉ a) (hab : '@' ∉ b)
    (hal : ∀ c ∈ a, c ≠ '<' ∧ c ≠ '>') (hbl : ∀ c ∈ b, c ≠ '<' ∧ c ≠ '>') :
    parseAddrPart toUnicode ('<' :: (a ++ '@' :: b ++ ['>'])) args
      = some { address := a ++ '@' :: toUnicode b, args := args } := by
  have hassoc : a ++ '@' :: b ++ ['>'] = (a ++ '@' :: b) ++ ['>'] := by
    rw [List.append_assoc]
  have hlast : (a ++ '@' :: b ++ ['>']).getLast? = some '>' := by
    rw [hassoc]
    exact List.getLast?_concat _
  have hdl : (a ++ '@' :: b ++ ['>']).dropLast = a ++ '@' :: b := by
    rw [hassoc]
    exact List.dropLast_concat
  have hmatch : matchAngle ('<' :: (a ++ '@' :: b ++ ['>'])) = true := by
    simp only [matchAngle, hlast, hdl, Bool.and_eq_true, List.all_eq_true]
    refine ⟨⟨by simp, by simp⟩, ?_⟩
    intro c hc
    rcases List.mem_append.1 hc with h | h
    · have := hal c h
      simp [this.1, this.2]
    · rcases List.mem_cons.1 h with h | h
      · subst h
        simp
      · have := hbl c h
        simp [this.1, this.2]
  have hdrop : (('<' :: (a ++ '@' :: b ++ ['>'])).drop 1).dropLast = a ++ '@' :: b := by
    simp only [List.drop_one, List.tail_cons, hdl]
  simp only [parseAddrPart, hmatch, if_true, hdrop]
  rw [if_neg (by simp [ha])]
  rw [splitOnChar_append haa, splitOnChar_not_mem hab]
  rw [if_pos (by simp [ha, hb])]
  simp

/-- C6: for every address `a@b` (local part and domain nonempty, free of
whitespace, angle brackets and further `@` signs) with `b` a valid Unicode
domain (punycode decoding fixes it), parsing the line
`MAIL FROM:<a@b> SIZE=123` against the expected verb `mail from` yields
the record with address `a@b` and arguments `{SIZE: "123"}`; the trailing
parameter was split on its first `=` and its key uppercased. -/
theorem c6_parse_mail_from_roundtrip (toUnicode : JStr → JStr) (a b : JStr)
    (ha : a ≠ []) (hb : b ≠ [])
    (haw : a.all (fun c => ¬ isWs c)) (hbw : b.all (fun c => ¬ isWs c))
    (haa : '@' ∉ a) (hab : '@' ∉ b)
    (hal : ∀ c ∈ a, c ≠ '<' ∧ c ≠ '>') (hbl : ∀ c ∈ b, c ≠ '<' ∧ c ≠ '>')
    (hu : toUnicode b = b) :
    _parseAddressCommand toUnicode (S "mail from")
        (S "MAIL FROM:" ++ ('<' :: (a ++ '@' :: b ++ ['>'])) ++ ' ' :: S "SIZE=123")
      = some { address := a ++ '@' :: b,
               args := some [(S "SIZE", AVal.str (S "123"))] } := by
  have h0 : S "MAIL FROM:" = S "MAIL FROM" ++ [':'] := by decide
  have hline : S "MAIL FROM:" ++ ('<' :: (a ++ '@' :: b ++ ['>'])) ++ ' ' :: S "SIZE=123"
      = S "MAIL FROM" ++ ':' :: (('<' :: (a ++ '@' :: b ++ ['>'])) ++ ' ' :: S "SIZE=123") := by
    rw [h0]
    simp [List.append_assoc]
  have htrim : trimL (('<' :: (a ++ '@' :: b ++ ['>'])) ++ ' ' :: S "SIZE=123")
      = ('<' :: (a ++ '@' :: b ++ ['>'])) ++ ' ' :: S "SIZE=123" := by
    have h2 : S "SIZE=123" = S "SIZE=12" ++ ['3'] := by decide
    have h1 : ('<' :: (a ++ '@' :: b ++ ['>'])) ++ ' ' :: S "SIZE=123"
        = '<' :: ((a ++ '@' :: b ++ ['>'] ++ ' ' :: S "SIZE=12") ++ ['3']) := by
      rw [h2]
      simp [List.append_assoc]
    rw [h1, trimL_eq_self (by decide) (by decide), ← h1]
  have hws : splitWs (('<' :: (a ++ '@' :: b ++ ['>'])) ++ ' ' :: S "SIZE=123")
      = ['<' :: (a ++ '@' :: b ++ ['>']), S "SIZE=123"] := by
    refine splitWs_pair ?_ (by simp) (by decide) (by decide)
    simp only [List.all_eq_true] at haw hbw ⊢
    intro c hc
    simp only [List.mem_cons, List.mem_append, List.mem_singleton] at hc
    rcases hc with rfl | (h | rfl | h) | rfl | h
    · decide
    · exact haw c h
    · decide
    · exact hbw c h
    · decide
    · exact absurd h (List.not_mem_nil c)
  simp only [_parseAddressCommand, hline]
  rw [splitOnChar_append (by decide : ':' ∉ S "MAIL FROM")]
  simp only [List.headD_cons, List.tail_cons]
  rw [joinChar_splitOnChar, htrim, hws]
  rw [if_neg (by decide)]
  simp only [List.headD_cons, List.tail_cons]
  rw [show parseParams [S "SIZE=123"] = some [(S "SIZE", AVal.str (S "123"))] by decide]
  rw [parseAddrPart_shape toUnicode a b _ ha hb haa hab hal hbl, hu]

theorem c6_parse_mail_from_roundtrip_witness :
    _parseAddressCommand id (S "mail from")
        (S "MAIL FROM:" ++ ('<' :: (S "bob" ++ '@' :: S "example.com" ++ ['>'])) ++ ' ' :: S "SIZE=123")
      = some { address := S "bob" ++ '@' :: S "example.com",
               args := some [(S "SIZE", AVal.str (S "123"))] } :=
  c6_parse_mail_from_roundtrip id (S "bob") (S "example.com")
    (by decide) (by decide) (by decide) (by decide) (by decide) (by decide)
    (by decide) (by decide) rfl

/-! ## Data model: session, connection, configuration (source lines 26-86, 413-428) -/

/-- An error passed by a collaborator callback: an optional `responseCode`
override (JavaScript `0` is falsy, hence `err.responseCode || dflt`
ignores a zero code) and a message used verbatim. -/
structure SMTPErr where
  responseCode : Option Nat
  message : String
deriving DecidableEq, Repr

/-- `err.responseCode || dflt`. -/
def jsOrCode (c : Option Nat) (dflt : Nat) : Nat :=
  match c with
  | some n => if n = 0 then dflt else n
  | none => dflt

/-- `session.user`: absent or a record carrying the username. -/
structure UserRec where
  username : JStr
deriving DecidableEq, Repr

/-- `session.envelope`. -/
structure Envelope where
  mailFrom : Option AddressRecord
  rcptTo : List AddressRecord
deriving DecidableEq, Repr

/-- The per-transaction session (source lines 413-428). -/
structure Session where
  remoteAddress : JStr
  clientHostname : Option JStr
  hostNameAppearsAs : Option JStr
  envelope : Envelope
  user : Option UserRec
  transaction : Nat
deriving DecidableEq, Repr

/-- The mutable connection state (source lines 26-86).  `Option JStr`
fields model JavaScript fields initialised to `false`. -/
structure Conn where
  session : Session
  transactionCounter : Nat
  ready : Bool
  upgrading : Bool
  hasNextHandler : Bool
  secure : Bool
  remoteAddress : JStr
  clientHostname : Option JStr
  hostNameAppearsAs : Option JStr
  unauthenticatedCommands : Nat
  unrecognizedCommands : Nat
  xclient : List (JStr × Option JStr)
  closing : Bool
deriving DecidableEq, Repr

/-- The server options the connection consults. -/
structure ServerCfg where
  name : String
  banner : Option String
  size : Option Nat
  authMethods : List JStr
  disabledCommands : List JStr
  hideSTARTTLS : Bool
  useXClient : Bool
  useProxy : Bool
  /-- The AUTH mechanisms the external `sasl` module implements
  (`typeof sasl['SASL_' + method] === 'function'`). -/
  saslMechanisms : List JStr
deriving DecidableEq, Repr

/-- `_startSession()` (source lines 413-428): replace the session with a
fresh one snapshotting the connection identity, an empty envelope, the
preserved user and `transactionCounter + 1`. -/
def _startSession (conn : Conn) : Conn :=
  { conn with
    session :=
      { remoteAddress := conn.remoteAddress
        clientHostname := conn.clientHostname
        hostNameAppearsAs := conn.hostNameAppearsAs
        envelope := { mailFrom := none, rcptTo := [] }
        user := conn.session.user
        transaction := conn.transactionCounter + 1 } }

/-- The verbs for which a `handler_<VERB>` method exists on the
connection prototype. -/
def handlerVerbs : List JStr :=
  [S "EHLO", S "HELO", S "QUIT", S "NOOP", S "RSET", S "HELP", S "VRFY",
   S "XCLIENT", S "STARTTLS", S "AUTH", S "MAIL", S "RCPT", S "DATA",
   S "WIZ", S "SHELL", S "KILL"]

/-- `_isSupported(command)` (source lines 347-351): the trimmed uppercased
verb is not disabled and has a handler. -/
def _isSupported (cfg : ServerCfg) (command : JStr) : Bool :=
  let c := upperL (trimL command)
  c ∉ cfg.disabledCommands ∧ c ∈ handlerVerbs

/-! ## MAIL and RCPT handlers (source lines 712-784) -/

/-- JavaScript truthiness of a parameter value. -/
def jsTruthyA : AVal → Bool
  | AVal.str s => s ≠ []
  | AVal.tru => true

/-- `Number(s)` for the nonnegative decimal-integer strings a `SIZE=`
parameter carries; `none` models `NaN` (a comparison against `NaN` is
false).  Other numeric literal shapes do not occur in a `SIZE` value. -/
def jsDigits? (s : JStr) : Option Nat :=
  if s ≠ [] ∧ s.all (fun c => c.isDigit) then
    some (s.foldl (fun n c => n * 10 + (c.toNat - '0'.toNat)) 0)
  else none

/-- `Number(v)` for a parameter value: `Number(true)` is `1`. -/
def jsNumberA : AVal → Option Nat
  | AVal.str s => jsDigits? s
  | AVal.tru => some 1

/-- The guard `options.size && parsed.args.SIZE && Number(parsed.args.SIZE)
> options.size` (source line 726); `parsed.args` may be `false`, and a
zero configured size is falsy. -/
def sizeViolation (size : Option Nat) (args : Option (List (JStr × AVal))) : Bool :=
  match size with
  | none => false
  | some sz =>
    if sz = 0 then false
    else
      match args with
      | none => false
      | some m =>
        match mapGet m (S "SIZE") with
        | none => false
        | some v =>
          if jsTruthyA v then
            match jsNumberA v with
            | some n => decide (n > sz)
            | none => false
          else false

theorem sizeViolation_no_args (size : Option Nat) : sizeViolation size none = false := by
  cases size with
  | none => rfl
  | some sz =>
    simp only [sizeViolation]
    split <;> rfl

/-- Outcome of `handler_MAIL`: the reply, the updated connection, and
whether the `onMailFrom` collaborator was invoked. -/
structure MailResult where
  reply : Nat × String
  conn : Conn
  calledOnMailFrom : Bool
deriving Repr

/-- `handler_MAIL` (source lines 712-742). -/
def handler_MAIL (cfg : ServerCfg) (toUnicode : JStr → JStr)
    (onMailFrom : AddressRecord → Session → Option SMTPErr)
    (conn : Conn) (command : JStr) : MailResult :=
  match _parseAddressCommand toUnicode (S "mail from") command with
  | none =>
    { reply := (501, "Error: Bad sender address syntax"), conn := conn,
      calledOnMailFrom := false }
  | some parsed =>
    if conn.session.envelope.mailFrom.isSome then
      { reply := (503, "Error: nested MAIL command"), conn := conn,
        calledOnMailFrom := false }
    else if sizeViolation cfg.size parsed.args then
      { reply := (552, "Error: message exceeds fixed maximum message size " ++
          toString (cfg.size.getD 0)), conn := conn, calledOnMailFrom := false }
    else
      match onMailFrom parsed conn.session with
      | some e =>
        { reply := (jsOrCode e.responseCode 550, e.message), conn := conn,
          calledOnMailFrom := true }
      | none =>
        { reply := (250, "Accepted"),
          conn := { conn with session := { conn.session with
            envelope := { conn.session.envelope with mailFrom := some parsed } } },
          calledOnMailFrom := true }

/-- The overwrite-or-append loop of `handler_RCPT` (source lines 769-779):
the first entry whose lowercased address equals the new one is replaced in
place; with no such entry the new record is appended. -/
def rcptReplace : List AddressRecord → AddressRecord → List AddressRecord
  | [], parsed => [parsed]
  | r :: rest, parsed =>
    if lowerL r.address = lowerL parsed.address then parsed :: rest
    else r :: rcptReplace rest parsed

/-- Outcome of `handler_RCPT`. -/
structure RcptResult where
  reply : Nat × String
  conn : Conn
  calledOnRcptTo : Bool
deriving Repr

/-- `handler_RCPT` (source lines 748-784). -/
def handler_RCPT (toUnicode : JStr → JStr)
    (onRcptTo : AddressRecord → Session → Option SMTPErr)
    (conn : Conn) (command : JStr) : RcptResult :=
  match _parseAddressCommand toUnicode (S "rcpt to") command with
  | none =>
    { reply := (501, "Error: Bad recipient address syntax"), conn := conn,
      calledOnRcptTo := false }
  | some parsed =>
    if parsed.address = [] then
      { reply := (501, "Error: Bad recipient address syntax"), conn := conn,
        calledOnRcptTo := false }
    else if conn.session.envelope.mailFrom.isNone then
      { reply := (503, "Error: need MAIL command"), conn := conn,
        calledOnRcptTo := false }
    else
      match onRcptTo parsed conn.session with
      | some e =>
        { reply := (jsOrCode e.responseCode 550, e.message), conn := conn,
          calledOnRcptTo := true }
      | none =>
        { reply := (250, "Accepted"),
          conn := { conn with session := { conn.session with
            envelope := { conn.session.envelope with
              rcptTo := rcptReplace conn.session.envelope.rcptTo parsed } } },
          calledOnRcptTo := true }

/-- No two entries of a recipient list differ only in address case. -/
def NoCaseDup (l : List AddressRecord) : Prop :=
  l.Pairwise (fun r s => lowerL r.address ≠ lowerL s.address)

theorem rcptReplace_append {l : List AddressRecord} {p : AddressRecord}
    (h : ∀ x ∈ l, lowerL x.address ≠ lowerL p.address) :
    rcptReplace l p = l ++ [p] := by
  induction l with
  | nil => rfl
  | cons r rest ih =>
    simp only [rcptReplace]
    rw [if_neg (h r (List.mem_cons_self r rest)),
      ih (fun x hx => h x (List.mem_cons_of_mem r hx))]
    rfl

theorem rcptReplace_set {l : List AddressRecord} {p : AddressRecord}
    (h : ∃ x ∈ l, lowerL x.address = lowerL p.address) :
    ∃ i : Fin l.length, lowerL (l.get i).address = lowerL p.address ∧
      rcptReplace l p = l.set i p := by
  induction l with
  | nil => simp at h
  | cons r rest ih =>
    by_cases hr : lowerL r.address = lowerL p.address
    · exact ⟨⟨0, by simp⟩, by simpa using hr, by simp [rcptReplace, hr]⟩
    · have h' : ∃ x ∈ rest, lowerL x.address = lowerL p.address := by
        rcases h with ⟨x, hx, he⟩
        rcases List.mem_cons.1 hx with rfl | hx
        · exact absurd he hr
        · exact ⟨x, hx, he⟩
      rcases ih h' with ⟨i, hi1, hi2⟩
      refine ⟨⟨i + 1, by simp⟩, ?_, ?_⟩
      · simpa using hi1
      · simp [rcptReplace, hr, hi2]

theorem mem_rcptReplace {l : List AddressRecord} {p x : AddressRecord}
    (hx : x ∈ rcptReplace l p) : x ∈ l ∨ x = p := by
  induction l with
  | nil =>
    right
    simpa [rcptReplace] using hx
  | cons r rest ih =>
    simp only [rcptReplace] at hx
    split at hx
    · rcases List.mem_cons.1 hx with rfl | hx
      · right
        rfl
      · left
        exact List.mem_cons_of_mem r hx
    · rcases List.mem_cons.1 hx with rfl | hx
      · left
        exact List.mem_cons_self _ _
      · rcases ih hx with h | h
        · left
          exact List.mem_cons_of_mem r h
        · right
          exact h

theorem noCaseDup_rcptReplace {l : List AddressRecord} {p : AddressRecord}
    (h : NoCaseDup l) : NoCaseDup (rcptReplace l p) := by
  induction l with
  | nil => simp [rcptReplace, NoCaseDup]
  | cons r rest ih =>
    rcases List.pairwise_cons.1 h with ⟨hr, hrest⟩
    simp only [NoCaseDup, rcptReplace]
    by_cases hc : lowerL r.address = lowerL p.address
    · rw [if_pos hc]
      exact List.pairwise_cons.2 ⟨fun s hs => hc ▸ hr s hs, hrest⟩
    · rw [if_neg hc]
      refine List.pairwise_cons.2 ⟨?_, ih hrest⟩
      intro s hs
      rcases mem_rcptReplace hs with h' | rfl
      · exact hr s h'
      · exact hc

/-- C2: when `onRcptTo` accepts a parsed recipient, the reply is 250
"Accepted" and the recipient list is updated by the overwrite-or-append
rule: a case-insensitive address collision replaces the colliding entry in
place (at its position, keeping the length), otherwise the record is
appended; consequently a list with no case-insensitive duplicates never
acquires one. -/
theorem c2_rcpt_dedup (toUnicode : JStr → JStr)
    (onRcptTo : AddressRecord → Session → Option SMTPErr)
    (conn : Conn) (command : JStr) (parsed : AddressRecord)
    (hp : _parseAddressCommand toUnicode (S "rcpt to") command = some parsed)
    (hne : parsed.address ≠ [])
    (hmf : conn.session.envelope.mailFrom.isSome)
    (hok : onRcptTo parsed conn.session = none) :
    (handler_RCPT toUnicode onRcptTo conn command).reply = (250, "Accepted") ∧
    (handler_RCPT toUnicode onRcptTo conn command).conn.session.envelope.rcptTo
      = rcptReplace conn.session.envelope.rcptTo parsed ∧
    ((∃ x ∈ conn.session.envelope.rcptTo, lowerL x.address = lowerL parsed.address) →
      (rcptReplace conn.session.envelope.rcptTo parsed).length
          = conn.session.envelope.rcptTo.length ∧
      ∃ i : Fin conn.session.envelope.rcptTo.length,
        lowerL (conn.session.envelope.rcptTo.get i).address = lowerL parsed.address ∧
        rcptReplace conn.session.envelope.rcptTo parsed
          = conn.session.envelope.rcptTo.set i parsed) ∧
    ((∀ x ∈ conn.session.envelope.rcptTo, lowerL x.address ≠ lowerL parsed.address) →
      rcptReplace conn.session.envelope.rcptTo parsed
        = conn.session.envelope.rcptTo ++ [parsed]) ∧
    (NoCaseDup conn.session.envelope.rcptTo →
      NoCaseDup ((handler_RCPT toUnicode onRcptTo conn command).conn.session.envelope.rcptTo)) := by
  have hrun : handler_RCPT toUnicode onRcptTo conn command =
      { reply := (250, "Accepted"),
        conn := { conn with session := { conn.session with
          envelope := { conn.session.envelope with
            rcptTo := rcptReplace conn.session.envelope.rcptTo parsed } } },
        calledOnRcptTo := true } := by
    simp only [handler_RCPT, hp]
    rcases Option.isSome_iff_exists.1 hmf with ⟨a, ha⟩
    rw [if_neg hne, if_neg (by simp [Option.isNone_iff_eq_none, ha]), hok]
  refine ⟨by rw [hrun], by rw [hrun], ?_, rcptReplace_append, fun hnd => ?_⟩
  · intro hex
    rcases rcptReplace_set hex with ⟨i, hi1, hi2⟩
    exact ⟨by rw [hi2, List.length_set], ⟨i, hi1, hi2⟩⟩
  · rw [hrun]
    exact noCaseDup_rcptReplace hnd

/-- A connection state used to instantiate the theorems: greeted, past
HELO, no user, empty envelope. -/
def conn0 : Conn :=
  { session :=
      { remoteAddress := S "192.0.2.1"
        clientHostname := some (S "[192.0.2.1]")
        hostNameAppearsAs := some (S "client.example")
        envelope := { mailFrom := none, rcptTo := [] }
        user := none
        transaction := 1 }
    transactionCounter := 0
    ready := true
    upgrading := false
    hasNextHandler := false
    secure := false
    remoteAddress := S "192.0.2.1"
    clientHostname := some (S "[192.0.2.1]")
    hostNameAppearsAs := some (S "client.example")
    unauthenticatedCommands := 0
    unrecognizedCommands := 0
    xclient := []
    closing := false }

/-- `conn0` with a sender already accepted. -/
def connW : Conn :=
  { conn0 with session := { conn0.session with
      envelope := { mailFrom := some { address := S "alice@example.com", args := none },
                    rcptTo := [] } } }

theorem c2_rcpt_dedup_witness :
    (handler_RCPT id (fun _ _ => none) connW (S "RCPT TO:<bob@example.com>")).reply
      = (250, "Accepted") :=
  (c2_rcpt_dedup id (fun _ _ => none) connW (S "RCPT TO:<bob@example.com>")
    { address := S "bob@example.com", args := none }
    (by decide) (by decide) (by decide) rfl).1

/-- A server configuration used to instantiate the theorems. -/
def cfgW : ServerCfg :=
  { name := "mail.example"
    banner := none
    size := none
    authMethods := []
    disabledCommands := []
    hideSTARTTLS := false
    useXClient := true
    useProxy := false
    saslMechanisms := [] }

/-- C7: the empty angle-bracket address is asymmetric.  `MAIL FROM:<>`
parses to an empty address, and when no sender is set, there is no SIZE
violation (the command carries no parameters) and `onMailFrom` accepts,
the reply is 250 and the empty sender is recorded; `RCPT TO:<>` is always
answered 501 "Error: Bad recipient address syntax" and `onRcptTo` is
never invoked. -/
theorem c7_empty_address_asymmetry (cfg : ServerCfg) (toUnicode : JStr → JStr)
    (onMailFrom onRcptTo : AddressRecord → Session → Option SMTPErr)
    (connM connR : Conn)
    (hmf : connM.session.envelope.mailFrom = none)
    (hok : onMailFrom { address := [], args := none } connM.session = none) :
    _parseAddressCommand toUnicode (S "mail from") (S "MAIL FROM:<>")
      = some { address := [], args := none } ∧
    (handler_MAIL cfg toUnicode onMailFrom connM (S "MAIL FROM:<>")).reply
      = (250, "Accepted") ∧
    (handler_MAIL cfg toUnicode onMailFrom connM (S "MAIL FROM:<>")).conn.session.envelope.mailFrom
      = some { address := [], args := none } ∧
    (handler_RCPT toUnicode onRcptTo connR (S "RCPT TO:<>")).reply
      = (501, "Error: Bad recipient address syntax") ∧
    (handler_RCPT toUnicode onRcptTo connR (S "RCPT TO:<>")).calledOnRcptTo = false := by
  have hparse : _parseAddressCommand toUnicode (S "mail from") (S "MAIL FROM:<>")
      = some { address := [], args := none } := rfl
  have hmail : handler_MAIL cfg toUnicode onMailFrom connM (S "MAIL FROM:<>")
      = { reply := (250, "Accepted"),
          conn := { connM with session := { connM.session with
            envelope := { connM.session.envelope with
              mailFrom := some { address := [], args := none } } } },
          calledOnMailFrom := true } := by
    simp only [handler_MAIL, hparse, hmf, Option.isSome_none, Bool.false_eq_true,
      if_false, sizeViolation_no_args, hok]
  exact ⟨hparse, by rw [hmail], by rw [hmail], rfl, rfl⟩

theorem c7_empty_address_asymmetry_witness :
    (handler_MAIL cfgW id (fun _ _ => none) conn0 (S "MAIL FROM:<>")).reply
      = (250, "Accepted") ∧
    (handler_RCPT id (fun _ _ => none) conn0 (S "RCPT TO:<>")).reply
      = (501, "Error: Bad recipient address syntax") :=
  let h := c7_empty_address_asymmetry cfgW id (fun _ _ => none) (fun _ _ => none)
    conn0 conn0 (by decide) rfl
  ⟨h.2.1, h.2.2.2.1⟩

/-! ## Dispatcher (`_onCommand`, source lines 252-339) -/

/-- The verbs of the HTTP trap regular expression. -/
def httpVerbs : List JStr :=
  [S "OPTIONS", S "GET", S "HEAD", S "POST", S "PUT", S "DELETE",
   S "TRACE", S "CONNECT"]

/-- The characters a JavaScript `.` does not match: line terminators. -/
def isLineTerm (c : Char) : Bool :=
  c = '\n' || c = '\r' || c.val = 0x2028 || c.val = 0x2029

/-- The last nine characters of an HTTP request line:
`' ' H T T P / digit . digit`, letters case-insensitive. -/
def matchHttpSuffix : JStr → Bool
  | [sp, h, t1, t2, p, sl, d1, dot, d2] =>
    sp = ' ' && h.toLower = 'h' && t1.toLower = 't' && t2.toLower = 't' &&
    p.toLower = 'p' && sl = '/' && d1.isDigit && dot = '.' && d2.isDigit
  | _ => false

/-- The regular expression
`^(OPTIONS|GET|HEAD|POST|PUT|DELETE|TRACE|CONNECT) \/.* HTTP\/\d\.\d$`
with the `i` flag (source line 282): a case-insensitive verb, a space and a
slash, a line-terminator-free middle, and the ` HTTP/d.d` tail. -/
def isHttpRequest (l : JStr) : Bool :=
  httpVerbs.any fun v =>
    let n := v.length + 2
    decide (l.length ≥ n + 9) &&
    lowerL (l.take v.length) = lowerL v &&
    (l.drop v.length).take 2 = [' ', '/'] &&
    ((l.drop n).take (l.length - n - 9)).all (fun c => !(isLineTerm c)) &&
    matchHttpSuffix (l.drop (l.length - 9))

/-- What `_onCommand` handed control to, if anything. -/
inductive Invoked where
  | nextHandler
  | verb (v : JStr)
  | proxyReady
deriving DecidableEq, Repr

/-- Outcome of one dispatched line: the reply written (if any), whether
`close()` was called, what was invoked, and the updated connection. -/
structure DispatchResult where
  reply : Option (Nat × String)
  closes : Bool
  invoked : Option Invoked
  conn : Conn
deriving DecidableEq, Repr

def fourVerbs : List JStr := [S "MAIL", S "RCPT", S "DATA", S "AUTH"]

def threeVerbs : List JStr := [S "MAIL", S "RCPT", S "DATA"]

/-- The HELO gate, the authentication gate and the handler invocation
(source lines 327-338).  `cn` is the uppercased verb, or `none` on the
queued-`nextHandler` path (where the source leaves `commandName`
undefined, which is falsy and not a member of any verb list). -/
def dispatchGates (cfg : ServerCfg) (conn : Conn) (cn : Option JStr) : DispatchResult :=
  if !(jsTruthy conn.hostNameAppearsAs) && jsTruthy cn &&
      decide (cn.getD [] ∈ fourVerbs) then
    { reply := some (503, "Error: send HELO/EHLO first"), closes := false,
      invoked := none, conn := conn }
  else if conn.session.user.isNone && _isSupported cfg (S "AUTH") &&
      decide (cn.getD [] ∈ threeVerbs) then
    { reply := some (530, "Error: authentication Required"), closes := false,
      invoked := none, conn := conn }
  else
    { reply := none, closes := false,
      invoked := some (match cn with
        | some c => Invoked.verb c
        | none => Invoked.nextHandler),
      conn := conn }

/-- The unauthenticated-command counter followed by the gates (source
lines 318-338): when AUTH is supported, no user is authenticated and the
verb is not AUTH, the counter increments; reaching 10 sends 554 and
closes, otherwise dispatch falls through to the gates. -/
def dispatchRecognized (cfg : ServerCfg) (conn : Conn) (cn : Option JStr) : DispatchResult :=
  if conn.session.user.isNone && _isSupported cfg (S "AUTH") &&
      !(cn == some (S "AUTH")) then
    let conn := { conn with
      unauthenticatedCommands := conn.unauthenticatedCommands + 1 }
    if conn.unauthenticatedCommands ≥ 10 then
      { reply := some (554, "Error: too many unauthenticated commands"),
        closes := true, invoked := none, conn := conn }
    else dispatchGates cfg conn cn
  else dispatchGates cfg conn cn

/-- `_onCommand(command)` up to the point where a handler (or the queued
`nextHandler`) takes over (source lines 252-339). -/
def _onCommand (cfg : ServerCfg) (conn : Conn) (command : JStr) : DispatchResult :=
  if !conn.ready then
    if cfg.useProxy then
      let params := splitOnChar ' ' command
      if upperL (params.headD []) ≠ S "PROXY" then
        { reply := some (500, "Invalid PROXY header"), closes := true,
          invoked := none, conn := conn }
      else
        let t := (params.get? 2).getD []
        let conn := if t ≠ [] then { conn with remoteAddress := lowerL (trimL t) } else conn
        { reply := none, closes := false, invoked := some Invoked.proxyReady, conn := conn }
    else
      { reply := some (421, cfg.name ++ " You talk too soon"), closes := true,
        invoked := none, conn := conn }
  else if isHttpRequest command then
    { reply := some (554, "HTTP requests not allowed"), closes := true,
      invoked := none, conn := conn }
  else if conn.upgrading then
    { reply := none, closes := false, invoked := none, conn := conn }
  else if conn.hasNextHandler then
    dispatchRecognized cfg { conn with hasNextHandler := false } none
  else
    let commandName := upperL (command.takeWhile (fun c => c ≠ ' '))
    if _isSupported cfg commandName then
      dispatchRecognized cfg conn (some commandName)
    else
      let conn := { conn with unrecognizedCommands := conn.unrecognizedCommands + 1 }
      if conn.unrecognizedCommands ≥ 10 then
        { reply := some (554, "Error: too many unrecognized commands"),
          closes := true, invoked := none, conn := conn }
      else
        { reply := some (500, "Error: command not recognized"), closes := false,
          invoked := none, conn := conn }

@[simp] theorem jsTruthy_some (s : JStr) : jsTruthy (some s) = decide (s ≠ []) := by
  simp [jsTruthy]

@[simp] theorem jsTruthy_none : jsTruthy none = false := rfl

theorem dispatchGates_conn (cfg : ServerCfg) (conn : Conn) (cn : Option JStr) :
    (dispatchGates cfg conn cn).conn = conn := by
  simp only [dispatchGates]
  split
  · rfl
  · split <;> rfl

theorem fourVerbs_ne_nil : ∀ v ∈ fourVerbs, v ≠ [] := by decide

theorem dispatchGates_503 (cfg : ServerCfg) (conn : Conn) (cn : JStr)
    (hhost : jsTruthy conn.hostNameAppearsAs = false) (hmem : cn ∈ fourVerbs) :
    dispatchGates cfg conn (some cn)
      = { reply := some (503, "Error: send HELO/EHLO first"), closes := false,
          invoked := none, conn := conn } := by
  have hne : cn ≠ [] := fourVerbs_ne_nil cn hmem
  simp only [dispatchGates]
  rw [if_pos (by simp [hhost, hne, hmem])]

theorem dispatchGates_no_verb (cfg : ServerCfg) (conn : Conn) (cn : Option JStr)
    (hhost : jsTruthy conn.hostNameAppearsAs = false) :
    ∀ v ∈ fourVerbs, (dispatchGates cfg conn cn).invoked ≠ some (Invoked.verb v) := by
  intro v hv
  cases cn with
  | none =>
    simp only [dispatchGates]
    split
    · simp
    · split <;> simp
  | some c =>
    by_cases hc : c = v
    · subst hc
      rw [dispatchGates_503 cfg conn c hhost hv]
      simp
    · simp only [dispatchGates]
      split
      · simp
      · split
        · simp
        · simp [hc]

theorem dispatchRecognized_no_verb (cfg : ServerCfg) (conn : Conn) (cn : Option JStr)
    (hhost : jsTruthy conn.hostNameAppearsAs = false) :
    ∀ v ∈ fourVerbs, (dispatchRecognized cfg conn cn).invoked ≠ some (Invoked.verb v) := by
  intro v hv
  simp only [dispatchRecognized]
  split
  · split
    · simp
    · exact dispatchGates_no_verb cfg
        { conn with unauthenticatedCommands := conn.unauthenticatedCommands + 1 }
        cn hhost v hv
  · exact dispatchGates_no_verb cfg conn cn hhost v hv

/-- While `hostNameAppearsAs` is unset, no dispatch outcome hands control
to a MAIL, RCPT, DATA or AUTH handler. -/
theorem onCommand_no_verb (cfg : ServerCfg) (conn : Conn) (command : JStr)
    (hhost : jsTruthy conn.hostNameAppearsAs = false) :
    ∀ v ∈ fourVerbs, (_onCommand cfg conn command).invoked ≠ some (Invoked.verb v) := by
  intro v hv
  simp only [_onCommand]
  split
  · split
    · split
      · simp
      · simp
    · simp
  · split
    · simp
    · split
      · simp
      · split
        · exact dispatchRecognized_no_verb cfg { conn with hasNextHandler := false }
            none hhost v hv
        · split
          · exact dispatchRecognized_no_verb cfg conn _ hhost v hv
          · split <;> simp

theorem onCommand_recognized (cfg : ServerCfg) (conn : Conn) (command : JStr)
    (hready : conn.ready = true) (hup : conn.upgrading = false)
    (hnext : conn.hasNextHandler = false) (hhttp : isHttpRequest command = false)
    (hsup : _isSupported cfg (upperL (command.takeWhile (fun c => c ≠ ' '))) = true) :
    _onCommand cfg conn command
      = dispatchRecognized cfg conn
          (some (upperL (command.takeWhile (fun c => c ≠ ' ')))) := by
  simp only [_onCommand, hready, hup, hnext, hhttp, hsup]
  simp

theorem onCommand_unrecognized (cfg : ServerCfg) (conn : Conn) (command : JStr)
    (hready : conn.ready = true) (hup : conn.upgrading = false)
    (hnext : conn.hasNextHandler = false) (hhttp : isHttpRequest command = false)
    (hunsup : _isSupported cfg (upperL (command.takeWhile (fun c => c ≠ ' '))) = false) :
    _onCommand cfg conn command
      = (if conn.unrecognizedCommands + 1 ≥ 10 then
          { reply := some (554, "Error: too many unrecognized commands"),
            closes := true, invoked := none,
            conn := { conn with unrecognizedCommands := conn.unrecognizedCommands + 1 } }
        else
          { reply := some (500, "Error: command not recognized"), closes := false,
            invoked := none,
            conn := { conn with unrecognizedCommands := conn.unrecognizedCommands + 1 } }) := by
  simp only [_onCommand, hready, hup, hnext, hhttp, hunsup]
  simp

/-- The exact condition under which the unauthenticated-command counter
closes the connection on this dispatch (source lines 319-324). -/
def authCounterWouldClose (cfg : ServerCfg) (conn : Conn) (cn : Option JStr) : Bool :=
  conn.session.user.isNone && _isSupported cfg (S "AUTH") && !(cn == some (S "AUTH")) &&
    decide (conn.unauthenticatedCommands + 1 ≥ 10)

/-- C3 (amended): for every dispatched command line whose verb is MAIL,
RCPT, DATA or AUTH (supported and not disabled) while `hostNameAppearsAs`
is unset, the verb's handler is not invoked; the reply is 503 "Error:
send HELO/EHLO first" unless the unauthenticated-command counter reaches
10 on this very command, in which case the reply is 554 and the
connection closes.  Moreover, in any state with `hostNameAppearsAs`
unset, no MAIL, RCPT, DATA or AUTH handler runs. -/
theorem c3_helo_gate (cfg : ServerCfg) (conn : Conn) (command : JStr)
    (hready : conn.ready = true) (hup : conn.upgrading = false)
    (hnext : conn.hasNextHandler = false)
    (hhttp : isHttpRequest command = false)
    (hhost : jsTruthy conn.hostNameAppearsAs = false)
    (hmem : upperL (command.takeWhile (fun c => c ≠ ' ')) ∈ fourVerbs)
    (hsup : _isSupported cfg (upperL (command.takeWhile (fun c => c ≠ ' '))) = true) :
    ((_onCommand cfg conn command).invoked = none ∧
     (_onCommand cfg conn command).closes
       = authCounterWouldClose cfg conn (some (upperL (command.takeWhile (fun c => c ≠ ' ')))) ∧
     (_onCommand cfg conn command).reply
       = some (if authCounterWouldClose cfg conn
                  (some (upperL (command.takeWhile (fun c => c ≠ ' ')))) then
                 (554, "Error: too many unauthenticated commands")
               else (503, "Error: send HELO/EHLO first"))) ∧
    (∀ (cfg' : ServerCfg) (conn' : Conn) (command' : JStr),
      jsTruthy conn'.hostNameAppearsAs = false →
      ∀ v ∈ fourVerbs, (_onCommand cfg' conn' command').invoked ≠ some (Invoked.verb v)) := by
  refine ⟨?_, fun cfg' conn' command' h v hv => onCommand_no_verb cfg' conn' command' h v hv⟩
  rw [onCommand_recognized cfg conn command hready hup hnext hhttp hsup]
  simp only [dispatchRecognized, authCounterWouldClose]
  by_cases hc : (conn.session.user.isNone && _isSupported cfg (S "AUTH") &&
      !((some (upperL (command.takeWhile (fun c => c ≠ ' '))) : Option JStr)
        == some (S "AUTH"))) = true
  · rw [if_pos hc]
    by_cases h10 : conn.unauthenticatedCommands + 1 ≥ 10
    · rw [if_pos h10]
      have hfires : (conn.session.user.isNone && _isSupported cfg (S "AUTH") &&
          !((some (upperL (command.takeWhile (fun c => c ≠ ' '))) : Option JStr)
            == some (S "AUTH")) &&
          decide (conn.unauthenticatedCommands + 1 ≥ 10)) = true := by
        rw [Bool.and_eq_true]
        exact ⟨hc, by simpa using h10⟩
      refine ⟨rfl, hfires.symm, ?_⟩
      rw [if_pos hfires]
    · rw [if_neg h10, dispatchGates_503 cfg
        { conn with unauthenticatedCommands := conn.unauthenticatedCommands + 1 }
        _ hhost hmem]
      have hfires : (conn.session.user.isNone && _isSupported cfg (S "AUTH") &&
          !((some (upperL (command.takeWhile (fun c => c ≠ ' '))) : Option JStr)
            == some (S "AUTH")) &&
          decide (conn.unauthenticatedCommands + 1 ≥ 10)) = false := by
        have hd : decide (conn.unauthenticatedCommands + 1 ≥ 10) = false := by
          simpa using h10
        rw [hd]
        simp
      refine ⟨rfl, hfires.symm, ?_⟩
      rw [if_neg (by rw [hfires]; simp)]
  · rw [if_neg hc, dispatchGates_503 cfg conn _ hhost hmem]
    have hcf : (conn.session.user.isNone && _isSupported cfg (S "AUTH") &&
        !((some (upperL (command.takeWhile (fun c => c ≠ ' '))) : Option JStr)
          == some (S "AUTH"))) = false := by
      simpa using hc
    have hfires : (conn.session.user.isNone && _isSupported cfg (S "AUTH") &&
        !((some (upperL (command.takeWhile (fun c => c ≠ ' '))) : Option JStr)
          == some (S "AUTH")) &&
        decide (conn.unauthenticatedCommands + 1 ≥ 10)) = false := by
      rw [hcf]
      simp
    refine ⟨rfl, hfires.symm, ?_⟩
    rw [if_neg (by rw [hfires]; simp)]

/-- The state of the C3 counterexample: greeted, `hostNameAppearsAs`
unset, nine unauthenticated commands already counted. -/
def conn9 : Conn := { conn0 with hostNameAppearsAs := none, unauthenticatedCommands := 9 }

/-- C3 counterexample: a ready connection with AUTH supported, no user,
`hostNameAppearsAs` unset and nine unauthenticated commands already
counted dispatches `MAIL FROM:<a@b>`; the verb is MAIL and the claimed
503 reply is not sent — the server answers 554 and closes. -/
theorem c3_helo_gate_counterexample :
    upperL ((S "MAIL FROM:<a@b>").takeWhile (fun c => c ≠ ' ')) = S "MAIL" ∧
    jsTruthy conn9.hostNameAppearsAs = false ∧
    (_onCommand cfgW conn9 (S "MAIL FROM:<a@b>")).reply
      ≠ some (503, "Error: send HELO/EHLO first") ∧
    (_onCommand cfgW conn9 (S "MAIL FROM:<a@b>")).reply
      = some (554, "Error: too many unauthenticated commands") ∧
    (_onCommand cfgW conn9 (S "MAIL FROM:<a@b>")).closes = true := by
  refine ⟨by decide, by decide, ?_, ?_, ?_⟩ <;> decide

theorem c3_helo_gate_witness :
    ((_onCommand cfgW { conn0 with hostNameAppearsAs := none } (S "MAIL FROM:<a@b>")).invoked
       = none ∧
     (_onCommand cfgW { conn0 with hostNameAppearsAs := none } (S "MAIL FROM:<a@b>")).closes
       = authCounterWouldClose cfgW { conn0 with hostNameAppearsAs := none }
           (some (upperL ((S "MAIL FROM:<a@b>").takeWhile (fun c => c ≠ ' ')))) ∧
     (_onCommand cfgW { conn0 with hostNameAppearsAs := none } (S "MAIL FROM:<a@b>")).reply
       = some (if authCounterWouldClose cfgW { conn0 with hostNameAppearsAs := none }
                  (some (upperL ((S "MAIL FROM:<a@b>").takeWhile (fun c => c ≠ ' ')))) then
                 (554, "Error: too many unauthenticated commands")
               else (503, "Error: send HELO/EHLO first"))) ∧
    (∀ (cfg' : ServerCfg) (conn' : Conn) (command' : JStr),
      jsTruthy conn'.hostNameAppearsAs = false →
      ∀ v ∈ fourVerbs, (_onCommand cfg' conn' command').invoked ≠ some (Invoked.verb v)) :=
  c3_helo_gate cfgW { conn0 with hostNameAppearsAs := none } (S "MAIL FROM:<a@b>")
    (by decide) (by decide) (by decide) (by decide) (by decide) (by decide) (by decide)

/-- C4: when AUTH is supported and no user is authenticated, a dispatched
line with a recognized verb other than AUTH increments
`unauthenticatedCount`; if the incremented count reaches 10, the server
replies 554 and closes the connection; otherwise dispatch falls through
to the subsequent HELO gate and authentication gate — the counter gates
disconnection, not dispatch of the command. -/
theorem c4_unauthenticated_counter (cfg : ServerCfg) (conn : Conn) (command : JStr)
    (hready : conn.ready = true) (hup : conn.upgrading = false)
    (hnext : conn.hasNextHandler = false) (hhttp : isHttpRequest command = false)
    (huser : conn.session.user = none)
    (hauth : _isSupported cfg (S "AUTH") = true)
    (hsup : _isSupported cfg (upperL (command.takeWhile (fun c => c ≠ ' '))) = true)
    (hne : upperL (command.takeWhile (fun c => c ≠ ' ')) ≠ S "AUTH") :
    (_onCommand cfg conn command).conn.unauthenticatedCommands
      = conn.unauthenticatedCommands + 1 ∧
    (conn.unauthenticatedCommands + 1 ≥ 10 →
      _onCommand cfg conn command
        = { reply := some (554, "Error: too many unauthenticated commands"),
            closes := true, invoked := none,
            conn := { conn with unauthenticatedCommands := conn.unauthenticatedCommands + 1 } }) ∧
    (conn.unauthenticatedCommands + 1 < 10 →
      _onCommand cfg conn command
        = dispatchGates cfg
            { conn with unauthenticatedCommands := conn.unauthenticatedCommands + 1 }
            (some (upperL (command.takeWhile (fun c => c ≠ ' '))))) := by
  rw [onCommand_recognized cfg conn command hready hup hnext hhttp hsup]
  have hcond : (conn.session.user.isNone && _isSupported cfg (S "AUTH") &&
      !((some (upperL (command.takeWhile (fun c => c ≠ ' '))) : Option JStr)
        == some (S "AUTH"))) = true := by
    have hne' : ¬ upperL (List.takeWhile (fun c => !decide (c = ' ')) command)
        = S "AUTH" := by simpa using hne
    simp [huser, hauth, hne']
  simp only [dispatchRecognized]
  rw [if_pos hcond]
  refine ⟨?_, ?_, ?_⟩
  · by_cases h10 : conn.unauthenticatedCommands + 1 ≥ 10
    · rw [if_pos h10]
    · rw [if_neg h10, dispatchGates_conn]
  · intro h10
    rw [if_pos h10]
  · intro h10
    have h10' : ¬(conn.unauthenticatedCommands + 1 ≥ 10) := by omega
    rw [if_neg h10']

theorem c4_unauthenticated_counter_witness :
    (_onCommand cfgW conn0 (S "NOOP")).conn.unauthenticatedCommands
      = conn0.unauthenticatedCommands + 1 :=
  (c4_unauthenticated_counter cfgW conn0 (S "NOOP") (by decide) (by decide) (by decide)
    (by decide) (by decide) (by decide) (by decide) (by decide)).1

/-- C5: a dispatched line whose verb is not in the handler table or is
listed in `disabledCommands` increments `unrecognizedCount`; while the
incremented count is below 10 the reply is 500 "Error: command not
recognized" and the connection stays open; the command that brings the
count to 10 is answered 554 and the connection is closed. -/
theorem c5_unrecognized_counter (cfg : ServerCfg) (conn : Conn) (command : JStr)
    (hready : conn.ready = true) (hup : conn.upgrading = false)
    (hnext : conn.hasNextHandler = false) (hhttp : isHttpRequest command = false)
    (hunsup : _isSupported cfg (upperL (command.takeWhile (fun c => c ≠ ' '))) = false) :
    (_onCommand cfg conn command).conn.unrecognizedCommands
      = conn.unrecognizedCommands + 1 ∧
    (_onCommand cfg conn command).invoked = none ∧
    (conn.unrecognizedCommands + 1 < 10 →
      (_onCommand cfg conn command).reply = some (500, "Error: command not recognized") ∧
      (_onCommand cfg conn command).closes = false) ∧
    (conn.unrecognizedCommands + 1 ≥ 10 →
      (_onCommand cfg conn command).reply
          = some (554, "Error: too many unrecognized commands") ∧
      (_onCommand cfg conn command).closes = true) := by
  rw [onCommand_unrecognized cfg conn command hready hup hnext hhttp hunsup]
  by_cases h10 : conn.unrecognizedCommands + 1 ≥ 10
  · rw [if_pos h10]
    exact ⟨rfl, rfl, fun h => absurd h10 (by omega), fun _ => ⟨rfl, rfl⟩⟩
  · rw [if_neg h10]
    exact ⟨rfl, rfl, fun _ => ⟨rfl, rfl⟩, fun h => absurd h h10⟩

theorem c5_unrecognized_counter_witness :
    (_onCommand cfgW conn0 (S "FOO")).conn.unrecognizedCommands
      = conn0.unrecognizedCommands + 1 ∧
    (_onCommand cfgW conn0 (S "FOO")).reply = some (500, "Error: command not recognized") :=
  let h := c5_unrecognized_counter cfgW conn0 (S "FOO") (by decide) (by decide)
    (by decide) (by decide) (by decide)
  ⟨h.1, (h.2.2.1 (by decide)).1⟩

/-! ## AUTH handler (source lines 681-707) -/

/-- Outcome of `handler_AUTH`: the gate reply, or the invoked mechanism
with its remaining arguments. -/
structure AuthResult where
  reply : Option (Nat × String)
  invoked : Option (JStr × List JStr)
deriving DecidableEq, Repr

/-- `handler_AUTH` (source lines 681-707): the mechanism is the uppercased
second token; the gates, in order: 538 when STARTTLS is offered
(supported, not hidden) on an insecure transport; 503 when a user is
already authenticated; 504 when the mechanism is not configured in
`authMethods` or the external `sasl` module has no `SASL_<METHOD>`
implementation; otherwise the mechanism handler is invoked with the
remaining arguments. -/
def handler_AUTH (cfg : ServerCfg) (conn : Conn) (command : JStr) : AuthResult :=
  let args := (splitWs (trimL command)).tail
  let method := upperL (args.headD [])
  let rest := args.tail
  let hasImpl := method ∈ cfg.saslMechanisms
  if !conn.secure && _isSupported cfg (S "STARTTLS") && !cfg.hideSTARTTLS then
    { reply := some (538, "Error: Must issue a STARTTLS command first"), invoked := none }
  else if conn.session.user.isSome then
    { reply := some (503, "Error: No identity changes permitted"), invoked := none }
  else if method ∉ cfg.authMethods ∨ ¬hasImpl then
    { reply := some (504, "Error: Unrecognized authentication type"), invoked := none }
  else { reply := none, invoked := some (method, rest) }

/-- C8: the AUTH gates apply in order — 538 when STARTTLS is offered and
the transport is not secure; else 503 when a user is already
authenticated; else 504 when the requested mechanism is not configured or
has no implementation; only when all three gates pass is the mechanism
handler invoked. -/
theorem c8_auth_gates (cfg : ServerCfg) (conn : Conn) (command : JStr) :
    ((_isSupported cfg (S "STARTTLS") && !cfg.hideSTARTTLS) = true →
      conn.secure = false →
      handler_AUTH cfg conn command
        = { reply := some (538, "Error: Must issue a STARTTLS command first"),
            invoked := none }) ∧
    (((_isSupported cfg (S "STARTTLS") && !cfg.hideSTARTTLS) = false ∨ conn.secure = true) →
      conn.session.user.isSome = true →
      handler_AUTH cfg conn command
        = { reply := some (503, "Error: No identity changes permitted"),
            invoked := none }) ∧
    (((_isSupported cfg (S "STARTTLS") && !cfg.hideSTARTTLS) = false ∨ conn.secure = true) →
      conn.session.user = none →
      (upperL (((splitWs (trimL command)).tail).headD []) ∉ cfg.authMethods ∨
        upperL (((splitWs (trimL command)).tail).headD []) ∉ cfg.saslMechanisms) →
      handler_AUTH cfg conn command
        = { reply := some (504, "Error: Unrecognized authentication type"),
            invoked := none }) ∧
    (((_isSupported cfg (S "STARTTLS") && !cfg.hideSTARTTLS) = false ∨ conn.secure = true) →
      conn.session.user = none →
      upperL (((splitWs (trimL command)).tail).headD []) ∈ cfg.authMethods →
      upperL (((splitWs (trimL command)).tail).headD []) ∈ cfg.saslMechanisms →
      handler_AUTH cfg conn command
        = { reply := none,
            invoked := some (upperL (((splitWs (trimL command)).tail).headD []),
              ((splitWs (trimL command)).tail).tail) }) := by
  have hg1of : ((_isSupported cfg (S "STARTTLS") && !cfg.hideSTARTTLS) = false ∨
      conn.secure = true) →
      (!conn.secure && _isSupported cfg (S "STARTTLS") && !cfg.hideSTARTTLS) = false := by
    intro h1
    rcases h1 with h | h
    · simp [Bool.and_assoc, h]
    · simp [h]
  refine ⟨?_, ?_, ?_, ?_⟩
  · intro hoff hsec
    simp only [Bool.and_eq_true] at hoff
    simp only [handler_AUTH]
    rw [if_pos (by simp [hsec, hoff.1, hoff.2])]
  · intro h1 h2
    simp only [handler_AUTH]
    rw [if_neg (by simp [hg1of h1]), if_pos h2]
  · intro h1 h2 h3
    simp only [handler_AUTH]
    rw [if_neg (by simp [hg1of h1]), if_neg (by simp [h2]), if_pos h3]
  · intro h1 h2 h3 h4
    simp only [handler_AUTH]
    rw [if_neg (by simp [hg1of h1]), if_neg (by simp [h2]),
      if_neg (fun hor => hor.elim (fun hn => hn h3) (fun hn => hn h4))]

/-- The configuration of the C8 witness: PLAIN configured and
implemented, STARTTLS hidden. -/
def cfg8 : ServerCfg :=
  { cfgW with hideSTARTTLS := true, authMethods := [S "PLAIN"], saslMechanisms := [S "PLAIN"] }

theorem c8_auth_gates_witness :
    handler_AUTH cfg8 conn0 (S "AUTH PLAIN")
      = { reply := none, invoked := some (S "PLAIN", []) } :=
  ((c8_auth_gates cfg8 conn0 (S "AUTH PLAIN")).2.2.2 (by decide) (by decide)
    (by decide) (by decide)).trans (by decide)

/-! ## XCLIENT handler (source lines 536-621) -/

/-- `name + ' ESMTP' + (options.banner ? ' ' + options.banner : '')`:
the banner suffix of the 220 greeting (an empty banner string is falsy). -/
def bannerSuffix (banner : Option String) : String :=
  match banner with
  | some b => if b = "" then "" else " " ++ b
  | none => ""

def xclientAllowedKeys : List JStr :=
  [S "NAME", S "ADDR", S "PORT", S "PROTO", S "HELO", S "LOGIN"]

/-- Parse and validate the XCLIENT `KEY=VALUE` tokens (source lines
561-574): each token must split on `=` into a key and exactly one value,
the uppercased key must be allowed, and values `[UNAVAILABLE]` /
`[TEMPUNAVAIL]` (case-insensitive) are treated as absent.  The pairs
accumulate into an insertion-ordered map. -/
def parseXClientArgs :
    List JStr → List (JStr × Option JStr) → Option (List (JStr × Option JStr))
  | [], acc => some acc
  | p :: rest, acc =>
    let kv := splitOnChar '=' p
    if kv.tail.length ≠ 1 ∨ upperL (kv.headD []) ∉ xclientAllowedKeys then none
    else
      let key := upperL (kv.headD [])
      let v := kv.tail.headD []
      let value : Option JStr :=
        if upperL v = S "[UNAVAILABLE]" ∨ upperL v = S "[TEMPUNAVAIL]" then none
        else some v
      parseXClientArgs rest (mapSet acc key value)

/-- Apply one XCLIENT key (source lines 577-610).  A present (truthy)
LOGIN value sets `session.user`; an absent LOGIN value only writes a
"deauthenticated" log line — `session.user` is left untouched.  A present
ADDR replaces `remoteAddress` (lowercased) and clears
`hostNameAppearsAs`.  NAME sets `clientHostname` (lowercased, absent
acting as the empty string).  Every key is recorded in `xclient`. -/
def applyXClientKey (conn : Conn) (kv : JStr × Option JStr) : Conn :=
  let conn' :=
    if kv.1 = S "LOGIN" then
      match kv.2 with
      | some v =>
        if v ≠ [] then
          { conn with session := { conn.session with user := some { username := v } } }
        else conn
      | none => conn
    else if kv.1 = S "ADDR" then
      match kv.2 with
      | some v =>
        if v ≠ [] then
          { conn with remoteAddress := lowerL v, hostNameAppearsAs := none }
        else conn
      | none => conn
    else if kv.1 = S "NAME" then
      { conn with clientHostname := some (lowerL (kv.2.getD [])) }
    else conn
  { conn' with xclient := mapSet conn'.xclient kv.1 kv.2 }

/-- Outcome of `handler_XCLIENT`. -/
structure XClientResult where
  reply : Nat × String
  conn : Conn
deriving DecidableEq, Repr

/-- `handler_XCLIENT` (source lines 536-621): 550 when ADDR was already
set or XCLIENT is disabled; 503 during a mail transaction; 501 on missing
or malformed parameters; otherwise apply every key's effect, fall back to
`[<remoteAddress>]` when `clientHostname` ended up falsy, and reply with
the 220 greeting. -/
def handler_XCLIENT (cfg : ServerCfg) (conn : Conn) (command : JStr) : XClientResult :=
  if (mapGet conn.xclient (S "ADDR")).isSome ∨ ¬cfg.useXClient then
    { reply := (550, "Error: Not allowed"), conn := conn }
  else if conn.session.envelope.mailFrom.isSome then
    { reply := (503, "Error: Mail transaction in progress"), conn := conn }
  else
    let parts := (splitWs (trimL command)).tail
    if parts = [] then
      { reply := (501, "Error: Bad command parameter syntax"), conn := conn }
    else
      match parseXClientArgs parts [] with
      | none => { reply := (501, "Error: Bad command parameter syntax"), conn := conn }
      | some data =>
        let conn := data.foldl applyXClientKey conn
        let conn :=
          if conn.remoteAddress ≠ [] ∧ ¬ jsTruthy conn.clientHostname then
            { conn with clientHostname := some ('[' :: conn.remoteAddress ++ [']']) }
          else conn
        { reply := (220, cfg.name ++ " ESMTP" ++ bannerSuffix cfg.banner), conn := conn }

/-- The state of the C1 failing input: a connection whose session is
authenticated as `alice`. -/
def conn1 : Conn :=
  { conn0 with session := { conn0.session with user := some { username := S "alice" } } }

/-- C1 (code bug): `XCLIENT LOGIN=[UNAVAILABLE]` on an authenticated
session passes all gates and records LOGIN as absent in the `xclient`
map, and the reply is the 220 greeting — but `session.user` is NOT
cleared: the handler only logs "User deauthenticated" (source lines
580-583) and leaves the user record in place, contradicting its own log
message and the documented deauthentication semantics. -/
theorem c1_xclient_login_absent_keeps_user :
    (handler_XCLIENT cfgW conn1 (S "XCLIENT LOGIN=[UNAVAILABLE]")).conn.session.user
        = some { username := S "alice" } ∧
    mapGet (handler_XCLIENT cfgW conn1 (S "XCLIENT LOGIN=[UNAVAILABLE]")).conn.xclient
        (S "LOGIN") = some none ∧
    (handler_XCLIENT cfgW conn1 (S "XCLIENT LOGIN=[UNAVAILABLE]")).reply.1 = 220 := by
  refine ⟨?_, ?_, ?_⟩ <;> decide

/-! ## DATA completion (source lines 789-828) -/

/-- Outcome of the DATA completion continuation. -/
structure DataCloseResult where
  reply : Nat × String
  conn : Conn
  parserContinued : Bool
deriving DecidableEq, Repr

/-- The `close` continuation of `handler_DATA` (source lines 797-813),
run once `onData` has returned and the data stream has ended: send the
error reply (`err.responseCode || 554`) or 250 with the collaborator
message (default "OK: message queued"); then increment
`transactionCounter`, reset `unrecognizedCommands`, replace the session
(`_startSession`) and resume the parser. -/
def dataClose (err : Option SMTPErr) (message : Option String) (conn : Conn) :
    DataCloseResult :=
  let reply :=
    match err with
    | some e => (jsOrCode e.responseCode 554, e.message)
    | none => (250, message.getD "OK: message queued")
  let conn := { conn with
    transactionCounter := conn.transactionCounter + 1
    unrecognizedCommands := 0 }
  let conn := _startSession conn
  { reply := reply, conn := conn, parserContinued := true }

/-- C9: after every completed DATA transaction the session is replaced by
a fresh one whose envelope has no `mailFrom` and an empty `rcptTo`,
`transactionCounter` has increased by exactly one, `unrecognizedCount` is
reset to 0, the parser is resumed into COMMAND mode, and the reply sent
is the collaborator error (`responseCode || 554`) or the 250 success. -/
theorem c9_data_close (err : Option SMTPErr) (message : Option String) (conn : Conn) :
    (dataClose err message conn).conn.session.envelope.mailFrom = none ∧
    (dataClose err message conn).conn.session.envelope.rcptTo = [] ∧
    (dataClose err message conn).conn.transactionCounter = conn.transactionCounter + 1 ∧
    (dataClose err message conn).conn.unrecognizedCommands = 0 ∧
    (dataClose err message conn).parserContinued = true ∧
    (dataClose err message conn).reply
      = (match err with
         | some e => (jsOrCode e.responseCode 554, e.message)
         | none => (250, message.getD "OK: message queued")) := by
  cases err <;> exact ⟨rfl, rfl, rfl, rfl, rfl, rfl⟩

/-! ## Connection greeting (`connectionReady`, source lines 109-142) -/

/-- The transport flags `send` and `close` consult. -/
structure SockState where
  writable : Bool
  destroyed : Bool
deriving DecidableEq, Repr

/-- The observable state of the greeting path: the socket, the replies
written so far and the lifecycle flags. -/
structure ReadyState where
  sock : SockState
  writes : List (Nat × String)
  ready : Bool
  closing : Bool
deriving DecidableEq, Repr

/-- `send(code, data)` (source lines 150-165): writes only while the
socket is writable. -/
def sendW (code : Nat) (text : String) (st : ReadyState) : ReadyState :=
  if st.sock.writable then { st with writes := st.writes ++ [(code, text)] } else st

/-- `close()` (source lines 170-178): `end()` the socket when it is
neither destroyed nor already unwritable, and mark `closing`. -/
def closeW (st : ReadyState) : ReadyState :=
  let st :=
    if ¬st.sock.destroyed ∧ st.sock.writable then
      { st with sock := { st.sock with writable := false } }
    else st
  { st with closing := true }

/-- The `onConnect` callback body inside `connectionReady` (source lines
120-132): on a collaborator error, send the error reply
(`err.responseCode || 554`) and call `close()` — and then fall through
without returning: set `ready := true` and send the 220 ESMTP greeting,
which is written only if the socket is still writable. -/
def connectionReadyOnConnect (cfg : ServerCfg) (err : Option SMTPErr)
    (st : ReadyState) : ReadyState :=
  let st :=
    match err with
    | some e => closeW (sendW (jsOrCode e.responseCode 554) e.message st)
    | none => st
  let st := { st with ready := true }
  sendW 220 (cfg.name ++ " ESMTP" ++ bannerSuffix cfg.banner) st

/-- C10: when `onConnect` passes an error, the server sends the error
response (`err.responseCode`, default 554, written only if the socket is
writable) and initiates close, but falls through instead of returning: it
still sets `ready := true`, and if the socket remains writable after the
close it also writes the 220 ESMTP greeting after the error response. -/
theorem c10_onconnect_error_falls_through (cfg : ServerCfg) (e : SMTPErr)
    (st : ReadyState) :
    (connectionReadyOnConnect cfg (some e) st).ready = true ∧
    (connectionReadyOnConnect cfg (some e) st).closing = true ∧
    (connectionReadyOnConnect cfg (some e) st).writes
      = st.writes
        ++ (if st.sock.writable then [(jsOrCode e.responseCode 554, e.message)] else [])
        ++ (if (closeW (sendW (jsOrCode e.responseCode 554) e.message st)).sock.writable then
              [(220, cfg.name ++ " ESMTP" ++ bannerSuffix cfg.banner)]
            else []) := by
  rcases st with ⟨⟨w, d⟩, writes, r, c⟩
  cases w <;> cases d <;>
    simp [connectionReadyOnConnect, sendW, closeW]

end SMTP
